import Mathlib

/-!
Shallow embedding of the signal-detection and order-building core of
`src/main.py` (an automated MT5 trading loop), together with proofs of the
specified properties.

Modelling conventions:
* Python floats are modelled as rationals (`ℚ`).  All properties proved here
  are order/max/arithmetic facts that hold over any linearly ordered field,
  independent of rounding.
* A pandas DataFrame of OHLC bars is modelled as a `List Bar` in index order.
  The source functions read only the `high`, `low`, `close` columns and the
  time index, so `Bar` carries exactly those fields (the unread `open` and
  volume columns are omitted).
* pandas `Series.max()` / `Series.min()` return NaN on an empty series; NaN is
  modelled as `none`, and NaN-propagating arithmetic as the `Option` match in
  `find_key_levels`.
* Python `return None` for a fallible operation is modelled as `Option`, with
  `none` the failure outcome.
-/

/-- One OHLC bar: the time index value and the three columns the core reads. -/
structure Bar where
  time : ℕ
  high : ℚ
  low : ℚ
  close : ℚ
deriving DecidableEq, Repr

/-- A detector signal, as the dict `{'time': …, 'type': …, 'price': …}`
built in `turtle_soup_signal`. -/
structure Signal where
  time : ℕ
  type : String
  price : ℚ
deriving DecidableEq, Repr

/-- Per-symbol trading parameters returned by `mt5.symbol_info`: the point
size and the broker minimum stop level (in points). -/
structure SymbolInfo where
  point : ℚ
  trade_stops_level : ℚ
deriving DecidableEq, Repr

/-- The order request dict built by `place_order` (the fields the claims
talk about: volume, reference price, stop loss, take profit). -/
structure OrderRequest where
  volume : ℚ
  price : ℚ
  sl : ℚ
  tp : ℚ
deriving DecidableEq, Repr

/-- `FIXED_MIN_STOP_DISTANCE = 100 * 0.01` (line 13): the fallback minimum
stop distance.  (In IEEE doubles `100 * 0.01` rounds to exactly `1.0`,
so the rational value coincides with the float value.) -/
def FIXED_MIN_STOP_DISTANCE : ℚ := 100 * 0.01

/-- pandas `Series.max()` over a column, NaN (= `none`) on an empty series. -/
def seriesMax : List ℚ → Option ℚ
  | [] => none
  | x :: xs =>
      some (match seriesMax xs with
            | none => x
            | some m => max x m)

/-- pandas `Series.min()` over a column, NaN (= `none`) on an empty series. -/
def seriesMin : List ℚ → Option ℚ
  | [] => none
  | x :: xs =>
      some (match seriesMin xs with
            | none => x
            | some m => min x m)

/-- `find_key_levels(data)` (lines 66–73): recent high = max of the `high`
column, recent low = min of the `low` column, key level = their midpoint.
On an empty window the pandas max/min are NaN (`none`) and the midpoint
arithmetic propagates NaN. -/
def find_key_levels (data : List Bar) : Option ℚ × Option ℚ × Option ℚ :=
  let recent_high := seriesMax (data.map Bar.high)
  let recent_low := seriesMin (data.map Bar.low)
  let key_level :=
    match recent_high, recent_low with
    | some h, some l => some ((h + l) / 2)
    | _, _ => none
  (recent_high, recent_low, key_level)

/-- The body of the loop in `turtle_soup_signal` (lines 82–85) for one bar:
the two `if` statements, in order, each appending at most one signal. -/
def turtle_step (key_level : ℚ) (direction : String) (b : Bar) : List Signal :=
  (if direction = "buy" ∧ b.low < key_level ∧ b.close > key_level
   then [⟨b.time, "buy", b.close⟩] else [])
  ++
  (if direction = "sell" ∧ b.high > key_level ∧ b.close < key_level
   then [⟨b.time, "sell", b.close⟩] else [])

/-- `turtle_soup_signal(data, key_level, direction)` (lines 76–89): scan the
bars at indices `1 … len(data)-1` (i.e. `data.drop 1`) in order, appending
the signals each bar produces. -/
def turtle_soup_signal (data : List Bar) (key_level : ℚ) (direction : String) :
    List Signal :=
  (data.drop 1).flatMap (turtle_step key_level direction)

/-- The qualification rule as the spec words it (§4.2): `buy` when
`bar.low < key_level` and `bar.close > key_level`; `sell` when
`bar.high > key_level` and `bar.close < key_level`.  Spec-side definition,
to be compared with the source-side `turtle_soup_signal`. -/
def qualifies (direction : String) (key_level : ℚ) (b : Bar) : Bool :=
  (direction == "buy" && decide (b.low < key_level) && decide (b.close > key_level))
  || (direction == "sell" && decide (b.high > key_level) && decide (b.close < key_level))

/-- The signal a qualifying bar yields, as the spec words it (§4.2):
`trigger_price = bar.close`, timestamp = the bar's index timestamp, type =
the requested direction. -/
def mkSignal (direction : String) (b : Bar) : Signal :=
  ⟨b.time, direction, b.close⟩

/-- `min_stop_distance` as computed in `place_order` (lines 107–110):
`trade_stops_level * point`, replaced by the fixed fallback when it is
exactly zero. -/
def min_stop_distance (info : SymbolInfo) : ℚ :=
  let m := info.trade_stops_level * info.point
  if m = 0 then FIXED_MIN_STOP_DISTANCE else m

/-- `buffer = 5 * min_stop_distance` (line 116). -/
def buffer (info : SymbolInfo) : ℚ :=
  5 * min_stop_distance info

/-- `stop_loss_distance = max(stop_loss_pips * point, min_stop_distance + buffer)`
(line 119). -/
def stop_loss_distance (info : SymbolInfo) (stop_loss_pips : ℚ) : ℚ :=
  max (stop_loss_pips * info.point) (min_stop_distance info + buffer info)

/-- `take_profit_distance = max(take_profit_pips * point, min_stop_distance + buffer)`
(line 120). -/
def take_profit_distance (info : SymbolInfo) (take_profit_pips : ℚ) : ℚ :=
  max (take_profit_pips * info.point) (min_stop_distance info + buffer info)

/-- `place_order(symbol, order_type, lot, stop_loss_pips, take_profit_pips)`
(lines 92–157), with the venue state passed explicitly: `symbol_info` is the
result of `mt5.symbol_info(symbol)` (`none` when the venue cannot describe
the symbol), `ask`/`bid` the tick prices.  On `symbol_info = none` the
function returns `None` before any price computation (lines 100–103);
otherwise it builds the request with the direction-dependent stop/target
prices (lines 105–142). -/
def place_order (symbol_info : Option SymbolInfo) (ask bid : ℚ)
    (order_type : String) (lot stop_loss_pips take_profit_pips : ℚ) :
    Option OrderRequest :=
  match symbol_info with
  | none => none
  | some info =>
      let current_price := if order_type = "buy" then ask else bid
      let sl_d := stop_loss_distance info stop_loss_pips
      let tp_d := take_profit_distance info take_profit_pips
      let stop_loss := if order_type = "buy" then current_price - sl_d
                       else current_price + sl_d
      let take_profit := if order_type = "buy" then current_price + tp_d
                         else current_price - tp_d
      some ⟨lot, current_price, stop_loss, take_profit⟩

/-- The per-cycle dispatch loops of `main` (lines 181–195): one `place_order`
call per buy signal, then one per sell signal, collecting each outcome and
continuing regardless of it. -/
def process_signals (symbol_info : Option SymbolInfo) (ask bid : ℚ)
    (lot stop_loss_pips take_profit_pips : ℚ)
    (buy_signals sell_signals : List Signal) : List (Option OrderRequest) :=
  buy_signals.map
    (fun _ => place_order symbol_info ask bid "buy" lot stop_loss_pips take_profit_pips)
  ++ sell_signals.map
    (fun _ => place_order symbol_info ask bid "sell" lot stop_loss_pips take_profit_pips)

/-- The two sequential `if`s of the loop body emit exactly one signal when the
bar qualifies for the requested direction and none otherwise. -/
lemma turtle_step_eq (k : ℚ) (d : String) (b : Bar) :
    turtle_step k d b = if qualifies d k b then [mkSignal d b] else [] := by
  by_cases hb : d = "buy"
  · subst hb
    by_cases h1 : b.low < k <;> by_cases h2 : b.close > k <;>
      simp [turtle_step, qualifies, mkSignal, h1, h2]
  · by_cases hs : d = "sell"
    · subst hs
      by_cases h1 : b.high > k <;> by_cases h2 : b.close < k <;>
        simp [turtle_step, qualifies, mkSignal, h1, h2]
    · simp [turtle_step, qualifies, mkSignal, hb, hs]

/-- Scanning a list of bars with the loop body equals filtering the
qualifying bars and mapping them to their signals. -/
lemma flatMap_turtle_step (k : ℚ) (d : String) :
    ∀ l : List Bar,
      l.flatMap (turtle_step k d) = (l.filter (qualifies d k)).map (mkSignal d)
  | [] => rfl
  | b :: l => by
      rw [List.flatMap_cons, flatMap_turtle_step k d l, turtle_step_eq,
        List.filter_cons]
      by_cases h : qualifies d k b <;> simp [h]

/-- The detector output is the filter-and-map of the window's tail. -/
lemma turtle_soup_signal_filter_map (data : List Bar) (k : ℚ) (d : String) :
    turtle_soup_signal data k d
      = ((data.drop 1).filter (qualifies d k)).map (mkSignal d) :=
  flatMap_turtle_step k d (data.drop 1)

/-- Every signal of a `buy` call has `price` strictly above the key level. -/
lemma turtle_buy_price_gt (data : List Bar) (k : ℚ) :
    ∀ s ∈ turtle_soup_signal data k "buy", k < s.price := by
  intro s hs
  rw [turtle_soup_signal_filter_map] at hs
  rcases List.mem_map.mp hs with ⟨b, hb, rfl⟩
  have hq := (List.mem_filter.mp hb).2
  simp [qualifies] at hq
  exact hq.2

/-- Every signal of a `sell` call has `price` strictly below the key level. -/
lemma turtle_sell_price_lt (data : List Bar) (k : ℚ) :
    ∀ s ∈ turtle_soup_signal data k "sell", s.price < k := by
  intro s hs
  rw [turtle_soup_signal_filter_map] at hs
  rcases List.mem_map.mp hs with ⟨b, hb, rfl⟩
  have hq := (List.mem_filter.mp hb).2
  simp [qualifies] at hq
  exact hq.2

/-- C4: for every window, key level and direction, the detector output is
exactly the qualifying bars of the tail (buy: `low < key_level < close`;
sell: `high > key_level > close`), one signal per qualifying bar with
`price = bar.close`, `time` = the bar's index timestamp and `type` = the
requested direction, preserving window (time) order. -/
theorem turtle_soup_signal_characterization (data : List Bar) (k : ℚ)
    (direction : String) :
    turtle_soup_signal data k direction
      = ((data.drop 1).filter (qualifies direction k)).map (mkSignal direction) :=
  turtle_soup_signal_filter_map data k direction

/-- C5: the window's first bar is never evaluated — the scan covers exactly
the tail of the window, so the output does not depend on bar 0 at all. -/
theorem turtle_soup_signal_skips_first_bar (b b' : Bar) (rest : List Bar)
    (k : ℚ) (direction : String) :
    turtle_soup_signal (b :: rest) k direction
        = rest.flatMap (turtle_step k direction)
    ∧ turtle_soup_signal (b :: rest) k direction
        = turtle_soup_signal (b' :: rest) k direction :=
  ⟨rfl, rfl⟩

/-- C10: a direction other than `buy` or `sell` yields the empty output (no
error is raised: both `if` conditions are simply false for every bar), and
every emitted signal's `type` equals the requested direction. -/
theorem turtle_soup_signal_direction_typed (data : List Bar) (k : ℚ)
    (direction : String) :
    (direction ≠ "buy" → direction ≠ "sell" →
        turtle_soup_signal data k direction = [])
    ∧ ∀ s ∈ turtle_soup_signal data k direction, s.type = direction := by
  constructor
  · intro hb hs
    rw [turtle_soup_signal_filter_map]
    have hq : ∀ b, qualifies direction k b = false := by
      intro b; simp [qualifies, hb, hs]
    simp [hq]
  · intro s hs
    rw [turtle_soup_signal_filter_map] at hs
    rcases List.mem_map.mp hs with ⟨b, -, rfl⟩
    rfl

/-- C10 witness: on a concrete two-bar window, the direction `"hold"`
produces the empty output. -/
theorem turtle_soup_signal_direction_typed_witness :
    turtle_soup_signal [⟨0, 12, 10, 11⟩, ⟨1, 11, 9, 23/2⟩] (21/2) "hold" = [] :=
  (turtle_soup_signal_direction_typed
      [⟨0, 12, 10, 11⟩, ⟨1, 11, 9, 23/2⟩] (21/2) "hold").1
    (by decide) (by decide)

/-- C3 counterexample: the claim is false — no window and key level can put
a signal with the same bar data (same time and trigger price) in both the
`buy` and the `sell` output, because a `buy` signal's price is strictly
above the key level while a `sell` signal's price is strictly below it. -/
theorem no_signal_in_both_directions :
    ¬ ∃ (data : List Bar) (k : ℚ) (s t : Signal),
        s ∈ turtle_soup_signal data k "buy"
        ∧ t ∈ turtle_soup_signal data k "sell"
        ∧ s.time = t.time ∧ s.price = t.price := by
  rintro ⟨data, k, s, t, hs, ht, -, hpr⟩
  have h1 := turtle_buy_price_gt data k s hs
  have h2 := turtle_sell_price_lt data k t ht
  rw [hpr] at h1
  exact absurd h2 (not_lt.mpr h1.le)

/-- C3 amended: a single bar can never qualify for both directions — the
`buy` condition needs `close > key_level` and the `sell` condition needs
`close < key_level`, so for every bar at least one direction's loop body
emits nothing, and the `buy` and `sell` outputs of the same window and key
level never share a trigger price. -/
theorem buy_sell_qualification_exclusive (data : List Bar) (k : ℚ) (b : Bar) :
    (turtle_step k "buy" b = [] ∨ turtle_step k "sell" b = [])
    ∧ ∀ s ∈ turtle_soup_signal data k "buy",
        ∀ t ∈ turtle_soup_signal data k "sell", s.price ≠ t.price := by
  constructor
  · by_cases h : b.close > k
    · right
      have h' : ¬ b.close < k := not_lt.mpr h.le
      simp [turtle_step, h']
    · left
      simp [turtle_step, h]
  · intro s hs t ht
    have h1 := turtle_buy_price_gt data k s hs
    have h2 := turtle_sell_price_lt data k t ht
    exact ne_of_gt (lt_trans h2 h1)

/-- C3 amended witness: a concrete window whose `buy` and `sell` outputs are
both non-empty, applied to the amended theorem: the two signals' prices
differ. -/
theorem buy_sell_qualification_exclusive_witness :
    Signal.price ⟨1, "buy", 11⟩ ≠ Signal.price ⟨2, "sell", 9⟩ :=
  (buy_sell_qualification_exclusive
      [⟨0, 10, 10, 10⟩, ⟨1, 12, 9, 11⟩, ⟨2, 11, 8, 9⟩] 10 ⟨1, 12, 9, 11⟩).2
    ⟨1, "buy", 11⟩ (by norm_num [turtle_soup_signal, turtle_step])
    ⟨2, "sell", 9⟩ (by norm_num [turtle_soup_signal, turtle_step])

/-- On a non-empty series the pandas max is defined, attained and an upper
bound. -/
lemma seriesMax_spec (l : List ℚ) (hne : l ≠ []) :
    ∃ m, seriesMax l = some m ∧ m ∈ l ∧ ∀ y ∈ l, y ≤ m := by
  induction l with
  | nil => exact absurd rfl hne
  | cons x xs ih =>
      rcases eq_or_ne xs [] with hxs | hxs
      · subst hxs
        exact ⟨x, rfl, by simp, by simp⟩
      · rcases ih hxs with ⟨m, hm, hmem, hub⟩
        refine ⟨max x m, by simp [seriesMax, hm], ?_, ?_⟩
        · rcases max_choice x m with h | h <;> rw [h]
          · exact List.mem_cons_self x xs
          · exact List.mem_cons_of_mem x hmem
        · intro y hy
          rcases List.mem_cons.mp hy with rfl | hy
          · exact le_max_left _ _
          · exact le_trans (hub y hy) (le_max_right _ _)

/-- On a non-empty series the pandas min is defined, attained and a lower
bound. -/
lemma seriesMin_spec (l : List ℚ) (hne : l ≠ []) :
    ∃ m, seriesMin l = some m ∧ m ∈ l ∧ ∀ y ∈ l, m ≤ y := by
  induction l with
  | nil => exact absurd rfl hne
  | cons x xs ih =>
      rcases eq_or_ne xs [] with hxs | hxs
      · subst hxs
        exact ⟨x, rfl, by simp, by simp⟩
      · rcases ih hxs with ⟨m, hm, hmem, hlb⟩
        refine ⟨min x m, by simp [seriesMin, hm], ?_, ?_⟩
        · rcases min_choice x m with h | h <;> rw [h]
          · exact List.mem_cons_self x xs
          · exact List.mem_cons_of_mem x hmem
        · intro y hy
          rcases List.mem_cons.mp hy with rfl | hy
          · exact min_le_left _ _
          · exact le_trans (min_le_right _ _) (hlb y hy)

/-- C2 counterexample: applied to a window of zero bars, `find_key_levels`
does not raise — there is no `EmptyWindowError` (or any raise) in the code;
the pandas max/min of the empty columns are NaN and the function returns the
NaN triple as a value. -/
theorem find_key_levels_empty_returns_value :
    find_key_levels [] = (none, none, none) := rfl

/-- C2 amended: for every window with zero bars, `find_key_levels` returns
(rather than raising) the triple (NaN, NaN, NaN), NaN modelled as `none`. -/
theorem find_key_levels_empty_nan (data : List Bar) (h : data = []) :
    find_key_levels data = (none, none, none) := by
  rw [h]
  rfl

/-- C2 amended witness: the empty window, concretely. -/
theorem find_key_levels_empty_nan_witness :
    find_key_levels ([] : List Bar) = (none, none, none) :=
  find_key_levels_empty_nan [] rfl

/-- C6: on every non-empty window of well-formed OHLC bars (each bar's low
is at most its high, intrinsic to an OHLC sample), the recent high, recent
low and key level are defined and satisfy
`recent_low ≤ key_level ≤ recent_high`. -/
theorem find_key_levels_band_invariant (data : List Bar) (hne : data ≠ [])
    (hwf : ∀ b ∈ data, b.low ≤ b.high) :
    ∃ hi lo k, find_key_levels data = (some hi, some lo, some k)
      ∧ lo ≤ k ∧ k ≤ hi := by
  have hmaph : data.map Bar.high ≠ [] := by simpa using hne
  have hmapl : data.map Bar.low ≠ [] := by simpa using hne
  rcases seriesMax_spec (data.map Bar.high) hmaph with ⟨hi, hmax, -, hub⟩
  rcases seriesMin_spec (data.map Bar.low) hmapl with ⟨lo, hmin, -, hlb⟩
  have hlohi : lo ≤ hi := by
    rcases data with - | ⟨b, rest⟩
    · exact absurd rfl hne
    · have h1 : lo ≤ b.low :=
        hlb b.low (List.mem_map_of_mem Bar.low (List.mem_cons_self b rest))
      have h2 : b.high ≤ hi :=
        hub b.high (List.mem_map_of_mem Bar.high (List.mem_cons_self b rest))
      exact le_trans h1 (le_trans (hwf b (List.mem_cons_self b rest)) h2)
  exact ⟨hi, lo, (hi + lo) / 2, by simp [find_key_levels, hmax, hmin],
    by linarith, by linarith⟩

/-- C6 witness: a concrete one-bar window. -/
theorem find_key_levels_band_invariant_witness :
    ∃ hi lo k, find_key_levels [⟨0, 12, 10, 11⟩]
        = (some hi, some lo, some k) ∧ lo ≤ k ∧ k ≤ hi :=
  find_key_levels_band_invariant [⟨0, 12, 10, 11⟩] (by simp) (by norm_num)

/-- C1: for available symbol info with positive point size and non-negative
broker stop level, both computed distances sit at or above the safety floor
`min_stop_distance + buffer` (with the fixed fallback substituted when the
broker minimum is exactly zero). -/
theorem stop_distances_respect_floor (info : SymbolInfo)
    (stop_loss_pips take_profit_pips : ℚ)
    (_hpt : 0 < info.point) (_hts : 0 ≤ info.trade_stops_level) :
    min_stop_distance info + buffer info
        ≤ stop_loss_distance info stop_loss_pips
    ∧ min_stop_distance info + buffer info
        ≤ take_profit_distance info take_profit_pips :=
  ⟨le_max_right _ _, le_max_right _ _⟩

/-- C1 witness: point size 0.01 and broker stop level 0 (the fallback case),
requested 30/60 pips. -/
theorem stop_distances_respect_floor_witness :
    min_stop_distance ⟨0.01, 0⟩ + buffer ⟨0.01, 0⟩
        ≤ stop_loss_distance ⟨0.01, 0⟩ 30
    ∧ min_stop_distance ⟨0.01, 0⟩ + buffer ⟨0.01, 0⟩
        ≤ take_profit_distance ⟨0.01, 0⟩ 60 :=
  stop_distances_respect_floor ⟨0.01, 0⟩ 30 60 (by norm_num) (by norm_num)

/-- C7: with the point size positive and every other input fixed, the
computed stop-loss distance is monotone in the requested stop-loss pips. -/
theorem stop_loss_distance_monotone (info : SymbolInfo) (p1 p2 : ℚ)
    (hpt : 0 < info.point) (h : p1 ≤ p2) :
    stop_loss_distance info p1 ≤ stop_loss_distance info p2 :=
  max_le_max (mul_le_mul_of_nonneg_right h hpt.le) le_rfl

/-- C7 witness: 10 ≤ 20 pips at point size 0.01. -/
theorem stop_loss_distance_monotone_witness :
    stop_loss_distance ⟨0.01, 20⟩ 10 ≤ stop_loss_distance ⟨0.01, 20⟩ 20 :=
  stop_loss_distance_monotone ⟨0.01, 20⟩ 10 20 (by norm_num) (by norm_num)

/-- C8: when the venue cannot supply symbol info, `place_order` returns the
failure outcome `none` (before any price is computed and without building a
request), and the per-cycle dispatch loop still processes every remaining
signal — one (failed) attempt per signal, none of them an order. -/
theorem symbol_info_unavailable_fails (ask bid : ℚ) (order_type : String)
    (lot stop_loss_pips take_profit_pips : ℚ)
    (buy_signals sell_signals : List Signal) :
    place_order none ask bid order_type lot stop_loss_pips take_profit_pips
        = none
    ∧ (process_signals none ask bid lot stop_loss_pips take_profit_pips
          buy_signals sell_signals).length
        = buy_signals.length + sell_signals.length
    ∧ ∀ r ∈ process_signals none ask bid lot stop_loss_pips take_profit_pips
          buy_signals sell_signals, r = none := by
  refine ⟨rfl, by simp [process_signals], ?_⟩
  intro r hr
  rcases List.mem_append.mp hr with h | h <;>
    · rcases List.mem_map.mp h with ⟨s, -, rfl⟩
      rfl

/-- The effective minimum stop distance is strictly positive: either the
broker value is positive, or it is zero and the fixed fallback (= 1) is
used. -/
lemma min_stop_distance_pos (info : SymbolInfo) (hpt : 0 < info.point)
    (hts : 0 ≤ info.trade_stops_level) : 0 < min_stop_distance info := by
  by_cases h : info.trade_stops_level * info.point = 0
  · simp only [min_stop_distance, h, if_pos]
    norm_num [FIXED_MIN_STOP_DISTANCE]
  · simp only [min_stop_distance, if_neg h]
    exact lt_of_le_of_ne (mul_nonneg hts hpt.le) (Ne.symm h)

/-- C9: every successful `place_order` run produces protective prices that
strictly bracket the entry price — buy: `sl < price < tp`; sell:
`tp < price < sl` — because both distances are at least
`6 * min_stop_distance > 0`. -/
theorem order_prices_bracket_entry (info : SymbolInfo)
    (ask bid lot stop_loss_pips take_profit_pips : ℚ)
    (hpt : 0 < info.point) (hts : 0 ≤ info.trade_stops_level) :
    (∃ r, place_order (some info) ask bid "buy" lot stop_loss_pips
            take_profit_pips = some r ∧ r.sl < r.price ∧ r.price < r.tp)
    ∧ (∃ r, place_order (some info) ask bid "sell" lot stop_loss_pips
            take_profit_pips = some r ∧ r.tp < r.price ∧ r.price < r.sl) := by
  have hmsd := min_stop_distance_pos info hpt hts
  have hfloor : 0 < min_stop_distance info + buffer info := by
    unfold buffer; linarith
  have hsl : 0 < stop_loss_distance info stop_loss_pips :=
    lt_of_lt_of_le hfloor (le_max_right _ _)
  have htp : 0 < take_profit_distance info take_profit_pips :=
    lt_of_lt_of_le hfloor (le_max_right _ _)
  constructor
  · refine ⟨⟨lot, ask, ask - stop_loss_distance info stop_loss_pips,
        ask + take_profit_distance info take_profit_pips⟩, ?_, ?_, ?_⟩
    · simp [place_order]
    · simp only
      linarith
    · simp only
      linarith
  · refine ⟨⟨lot, bid, bid + stop_loss_distance info stop_loss_pips,
        bid - take_profit_distance info take_profit_pips⟩, ?_, ?_, ?_⟩
    · simp [place_order]
    · simp only
      linarith
    · simp only
      linarith

/-- C9 witness: point size 0.01, broker stop level 0, ask 100, bid 99. -/
theorem order_prices_bracket_entry_witness :
    (∃ r, place_order (some ⟨0.01, 0⟩) 100 99 "buy" 1 30 60 = some r
        ∧ r.sl < r.price ∧ r.price < r.tp)
    ∧ (∃ r, place_order (some ⟨0.01, 0⟩) 100 99 "sell" 1 30 60 = some r
        ∧ r.tp < r.price ∧ r.price < r.sl) :=
  order_prices_bracket_entry ⟨0.01, 0⟩ 100 99 1 30 60 (by norm_num) (by norm_num)

/-- C8 witness: with one concrete buy signal and no symbol info, the failed
attempt `none` is in the cycle's outcome list and equals `none`. -/
theorem symbol_info_unavailable_fails_witness :
    none ∈ process_signals none 100 99 1 30 60 [⟨0, "buy", 11⟩] []
    ∧ (none : Option OrderRequest) = none :=
  ⟨by simp [process_signals, place_order],
   (symbol_info_unavailable_fails 100 99 "buy" 1 30 60 [⟨0, "buy", 11⟩] []).2.2
     none (by simp [process_signals, place_order])⟩
